import Mathlib

/-!
Verification development for the daily-issue lifecycle and draft-promotion
logic of the task-monitoring scripts (`scripts/main.js`,
`scripts/collect_repo_data.js`, `scripts/generate_reminder.js`, and the
issue-management module exporting `findOrCreateDailyIssue`,
`postCommentToDailyIssue` and `processDrafts`).

The JavaScript is embedded shallowly:
* JS strings are `List Char` (`Str`); the string operations used by the
  scripts (`indexOf`, `substring` after/before a found index, `split("\n")`,
  `trim`, `includes`, `toLowerCase`, and the two list-item regexes) are
  reimplemented below by structural recursion so that concrete runs reduce
  in the kernel.
* The external issue tracker is a `World` value: open issues, comments,
  reactions, and fresh-id counters.  Each tracker API call either reads the
  world or appends to it.
* The `retry` wrapper of `scripts/utils.js` does not change which results a
  call can produce (a call fails iff every attempt fails), so an external
  call is modelled as succeeding or failing according to an explicit fault
  schedule (`Faults`); a failure models retry exhaustion, after which the
  JS rethrows into the surrounding `try`.
* A JS `try { ... } catch` over stateful code is `Except`: the `error`
  branch carries the world and statistics as mutated up to the throw.
-/

/-! ### JS string primitives over `List Char` -/

/-- A JS string, as its sequence of characters. -/
abbrev Str := List Char

/-- Coercion from Lean string literals to the model's string type. -/
def str (s : String) : Str := s.toList

/-- Approximation of the JS `\s` class / `String.prototype.trim` whitespace
set (exotic Unicode spaces are not distinguished; no source string or
tested input uses them). -/
def jsWhitespace (c : Char) : Bool := c.isWhitespace

/-- JS `String.prototype.trim`. -/
def jsTrim (s : Str) : Str :=
  ((s.dropWhile jsWhitespace).reverse.dropWhile jsWhitespace).reverse

/-- Splits `s` at the first occurrence of `sep`, returning the text before
it and the text after it; `none` when `sep` does not occur.  This models
`s.indexOf(sep)` together with the two `substring` calls made on a found
index.  Like JS `indexOf`, an empty `sep` is found at position 0. -/
def breakOnFirst (sep : Str) : Str → Option (Str × Str)
  | [] => if sep = [] then some ([], []) else none
  | c :: rest =>
    if sep.isPrefixOf (c :: rest) then some ([], (c :: rest).drop sep.length)
    else
      match breakOnFirst sep rest with
      | some (pre, post) => some (c :: pre, post)
      | none => none

/-- JS `s.includes(sub)`. -/
def jsIncludes (s sub : Str) : Bool := (breakOnFirst sub s).isSome

/-- JS `s.split("\n")`. -/
def splitLines : Str → List Str
  | [] => [[]]
  | c :: rest =>
    if c = '\n' then [] :: splitLines rest
    else
      match splitLines rest with
      | [] => [[c]]
      | l :: ls => (c :: l) :: ls

/-- JS `s.toLowerCase()` (ASCII case folding; the Japanese text in the
sources is caseless). -/
def toLowerStr (s : Str) : Str := s.map Char.toLower

/-- JS `s.join("\n")` on a list of strings. -/
def joinLines : List Str → Str
  | [] => []
  | [l] => l
  | l :: ls => l ++ '\n' :: joinLines ls

/-- Decimal rendering of a number, for the `${...}` template
interpolations of numbers. -/
def natStr (n : Nat) : Str := Nat.toDigits 10 n

/-! ### The two list-item regexes

`processDrafts` filters draft lines with `/^(-|\*|\d+\.)\s+.+/` and strips
the marker with `replace(/^(-|\*|\d+\.)\s+/, "")`. -/

/-- After an initial digit, the regex alternative `\d+\.` consumes further
digits and then requires a literal dot; returns the remainder. -/
def digitsThenDot : Str → Option Str
  | [] => none
  | c :: rest =>
    if c = '.' then some rest
    else if c.isDigit then digitsThenDot rest
    else none

/-- Matches the group `(-|\*|\d+\.)` at the start of the line, returning
the remainder of the line. -/
def listItemRest : Str → Option Str
  | [] => none
  | c :: rest =>
    if c = '-' || c = '*' then some rest
    else if c.isDigit then digitsThenDot rest
    else none

/-- Which characters the JS regex `.` matches (everything except line
terminators). -/
def jsDotMatch (c : Char) : Bool :=
  !(c = '\n' || c = '\r' || c = '\u2028' || c = '\u2029')

/-- Whether `\s+.+` matches a prefix of the remainder: one whitespace
character, then either a `.`-matchable character or more whitespace
(the regex engine's backtracking over the greedy `\s+`). -/
def wsThenAny : Str → Bool
  | [] => false
  | c :: rest => jsDotMatch c || (jsWhitespace c && wsThenAny rest)

/-- JS `line.match(/^(-|\*|\d+\.)\s+.+/) !== null`. -/
def matchListItem (line : Str) : Bool :=
  match listItemRest line with
  | some (c :: rest) => jsWhitespace c && wsThenAny rest
  | _ => false

/-- JS `draft.replace(/^(-|\*|\d+\.)\s+/, "")`: when the pattern matches,
the marker and the greedy whitespace run are removed; otherwise the line
is unchanged. -/
def stripListMarker (line : Str) : Str :=
  match listItemRest line with
  | some (c :: rest) =>
    if jsWhitespace c then (c :: rest).dropWhile jsWhitespace else line
  | _ => line

/-- The sub-issue title derived from a draft line:
`draft.replace(/^(-|\*|\d+\.)\s+/, "").trim()`. -/
def draftTitleOf (draft : Str) : Str := jsTrim (stripListMarker draft)

/-! ### Fixed textual constants of the issue-management module -/

/-- Label identifying the daily tracking issue. -/
def DAILY_ISSUE_LABEL : Str := str "daily-task-summary"

/-- Title prefix of the daily tracking issue. -/
def DAILY_ISSUE_TITLE_PREFIX : Str := str "Task Status"

/-- Marker for the drafts section in the daily issue body. -/
def DRAFT_SECTION_HEADER : Str := str "## メモ・下書き"

/-- Label for issues created from drafts. -/
def SUB_ISSUE_LABEL : Str := str "sub-issue"

/-- Marker substring identifying the confirmation comment. -/
def CONFIRMATION_MARKER : Str := str "下書きセクションからの子Issueの作成"

/-- The template placeholder text checked for in the drafts region. -/
def PLACEHOLDER_MARKER : Str := str "<!-- Add any draft notes"

/-! ### The external tracker as a state value -/

/-- An open issue of the target repository (`octokit` issue shape restricted
to the fields the scripts read). -/
structure Issue where
  number : Nat
  title : Str
  html_url : Str
  body : Str
  labels : List Str
  deriving DecidableEq

/-- A comment on some issue (`user.type` is the author type string,
`"Bot"` for the automation identity). -/
structure Comment where
  id : Nat
  issueNumber : Nat
  body : Str
  userType : Str
  deriving DecidableEq

/-- A reaction on a comment (`content` is e.g. `"+1"`). -/
structure Reaction where
  commentId : Nat
  content : Str
  deriving DecidableEq

/-- The observable state of the external tracker for the target
repository. -/
structure World where
  openIssues : List Issue
  comments : List Comment
  reactions : List Reaction
  nextIssueNumber : Nat
  nextCommentId : Nat
  deriving DecidableEq

/-- URL assigned by the tracker to issue number `n`. -/
def issueUrl (n : Nat) : Str := str "https://github.test/issues/" ++ natStr n

/-- Tracker call `issues.get`: the scripts only ever fetch open issues the
run itself located, so lookup is over the open issues. -/
def World.getIssue (w : World) (n : Nat) : Option Issue :=
  w.openIssues.find? (fun i => i.number = n)

/-- Tracker call `issues.listComments` for one issue. -/
def World.listComments (w : World) (n : Nat) : List Comment :=
  w.comments.filter (fun c => c.issueNumber = n)

/-- Tracker call `reactions.listForIssueComment`. -/
def World.listReactions (w : World) (cid : Nat) : List Reaction :=
  w.reactions.filter (fun r => r.commentId = cid)

/-- Tracker call `issues.create`: appends a fresh open issue and returns
it. -/
def World.createIssue (w : World) (title body : Str) (labels : List Str) :
    Issue × World :=
  let i : Issue :=
    { number := w.nextIssueNumber, title := title,
      html_url := issueUrl w.nextIssueNumber, body := body, labels := labels }
  (i, { w with openIssues := w.openIssues ++ [i],
               nextIssueNumber := w.nextIssueNumber + 1 })

/-- Tracker call `issues.createComment`, authored by the automation
identity. -/
def World.createComment (w : World) (n : Nat) (body : Str) :
    Comment × World :=
  let c : Comment :=
    { id := w.nextCommentId, issueNumber := n, body := body,
      userType := str "Bot" }
  (c, { w with comments := w.comments ++ [c],
               nextCommentId := w.nextCommentId + 1 })

/-- Ambient configuration: `TARGET_REPO_OWNER`, `TARGET_REPO_NAME` (empty
list models an unset or empty variable, which is falsy in JS), the value of
`getCurrentDateUTC()` for this run, and the `new Date().toISOString()`
timestamp used by the comment poster. -/
structure Config where
  owner : Str
  repo : Str
  today : Str
  now : Str

/-- Errors that escape a top-level function of the module. -/
inductive JsError where
  | configError
  | missingIssueNumber
  | missingReminderData
  | apiError
  deriving DecidableEq

/-- Per-run statistics of `processDrafts`. -/
structure Stats where
  processed : Nat
  created : Nat
  existed : Nat
  deriving DecidableEq

/-- Fault schedule for the external calls made by `processDrafts`; `true`
(or `true` at an index) means that call exhausts its retries and throws.
The per-item calls of the materialization loop are indexed by the
iteration count. -/
structure Faults where
  getIssue : Bool
  listComments : Bool
  createConfirmation : Bool
  listReactions : Bool
  listOpenIssues : Nat → Bool
  createSubIssue : Nat → Bool
  createRefComment : Nat → Bool

/-- The fault-free schedule. -/
def noFaults : Faults :=
  { getIssue := false, listComments := false, createConfirmation := false,
    listReactions := false, listOpenIssues := fun _ => false,
    createSubIssue := fun _ => false, createRefComment := fun _ => false }

/-! ### Draft extraction (`processDrafts`, extraction phase) -/

/-- Extraction of the drafts region from an issue body: `none` when the
drafts-section header is absent (`indexOf === -1`); otherwise the text
after the header, cut at the next occurrence of `"##"` when there is one,
and trimmed. -/
def draftsContentOf (body : Str) : Option Str :=
  match breakOnFirst DRAFT_SECTION_HEADER body with
  | none => none
  | some (_, draftText) =>
    some (match breakOnFirst (str "##") draftText with
          | some (pre, _) => jsTrim pre
          | none => jsTrim draftText)

/-- The draft lines of a drafts region: split into lines, trim each, keep
the ones matching the bullet / numbered-list pattern. -/
def draftLinesOf (content : Str) : List Str :=
  ((splitLines content).map jsTrim).filter matchListItem

/-- Whether a comment is the confirmation request: its body contains the
fixed marker and its author type is `"Bot"`. -/
def isConfirmation (c : Comment) : Bool :=
  jsIncludes c.body CONFIRMATION_MARKER && c.userType = str "Bot"

/-- Body of the confirmation request comment, enumerating the draft lines
with 1-based indices. -/
def confirmationBody (draftLines : List Str) : Str :=
  str "### 下書きセクションからの子Issueの作成\n\n下書きセクションに " ++
  natStr draftLines.length ++
  str " 件の項目が見つかりました。これらを子Issueとして作成しますか？\n作成する場合は、このコメントに 👍 (thumbs up) リアクションを追加してください。\n\n**下書き項目一覧:**\n" ++
  joinLines (enumerateLines 1 draftLines) ++
  str "\n\n*注: リアクションが追加されるまで、自動的に子Issueは作成されません。*"
where
  /-- `draftLines.map((line, i) => (i + 1) + ". " + line)`. -/
  enumerateLines (i : Nat) : List Str → List Str
    | [] => []
    | l :: ls => (natStr i ++ str ". " ++ l) :: enumerateLines (i + 1) ls

/-- Body of a sub-issue created from a draft title. -/
def subIssueBody (cfg : Config) (issueNumber : Nat) (parent : Issue)
    (draftTitle : Str) : Str :=
  str "### 背景\nこの Issue は、[" ++ DAILY_ISSUE_TITLE_PREFIX ++ str " " ++
  cfg.today ++ str " (#" ++ natStr issueNumber ++ str ")](" ++
  parent.html_url ++ str ") の下書きセクションから自動生成されました。\n\n### 詳細\n" ++
  draftTitle ++ str "\n\n### 親Issue\n#" ++ natStr issueNumber ++ str "\n"

/-- Body of the back-reference comment posted on the tracking issue after
a sub-issue is created. -/
def refCommentBody (draftTitle : Str) (newNumber : Nat) : Str :=
  str "サブIssue 「" ++ draftTitle ++ str "」を作成しました: #" ++ natStr newNumber

/-- The duplicate check of the materialization loop: some open issue's
title is case-insensitively equal to the draft title or case-insensitively
contains it as a substring. -/
def existsSimilar (openIssues : List Issue) (draftTitle : Str) : Bool :=
  openIssues.any (fun e =>
    toLowerStr e.title = toLowerStr draftTitle ||
    jsIncludes (toLowerStr e.title) (toLowerStr draftTitle))

/-! ### The materialization loop of `processDrafts` -/

/-- The `for (const draft of draftLines)` loop.  An `error` result is a
throw escaping to the outer catch of `processDrafts` (only the per-item
open-issue fetch can throw there: the creation steps sit inside the inner
per-item `try`).  `idx` counts iterations for the fault schedule. -/
def materializeLoop (cfg : Config) (f : Faults) (issueNumber : Nat)
    (parent : Issue) :
    Nat → List Str → World → Stats → Except (World × Stats) (World × Stats)
  | _, [], w, stats => .ok (w, stats)
  | idx, draft :: rest, w, stats =>
    let draftTitle := draftTitleOf draft
    if draftTitle = [] then
      materializeLoop cfg f issueNumber parent (idx + 1) rest w stats
    else if f.listOpenIssues idx then
      .error (w, stats)
    else if existsSimilar w.openIssues draftTitle then
      materializeLoop cfg f issueNumber parent (idx + 1) rest w
        { stats with existed := stats.existed + 1 }
    else if f.createSubIssue idx then
      materializeLoop cfg f issueNumber parent (idx + 1) rest w stats
    else
      let created := w.createIssue draftTitle
        (subIssueBody cfg issueNumber parent draftTitle) [SUB_ISSUE_LABEL]
      let stats1 := { stats with created := stats.created + 1 }
      if f.createRefComment idx then
        materializeLoop cfg f issueNumber parent (idx + 1) rest created.2 stats1
      else
        let w2 := (created.2.createComment issueNumber
          (refCommentBody draftTitle created.1.number)).2
        materializeLoop cfg f issueNumber parent (idx + 1) rest w2 stats1

/-! ### `processDrafts` -/

/-- The body of the `try` block of `processDrafts`: an `error` result is a
throw reaching the outer catch, carrying the world and the statistics as
mutated so far. -/
def processDraftsTry (cfg : Config) (f : Faults) (issueNumber : Nat)
    (w : World) : Except (World × Stats) (World × Stats) :=
  let stats0 : Stats := { processed := 0, created := 0, existed := 0 }
  if f.getIssue then .error (w, stats0)
  else
    match w.getIssue issueNumber with
    | none => .error (w, stats0)
    | some issue =>
      match draftsContentOf issue.body with
      | none => .ok (w, stats0)
      | some draftsContent =>
        if draftsContent = [] || jsIncludes draftsContent PLACEHOLDER_MARKER then
          .ok (w, stats0)
        else if f.listComments then .error (w, stats0)
        else
          let comments := w.listComments issueNumber
          let draftLines := draftLinesOf draftsContent
          let stats1 := { stats0 with processed := draftLines.length }
          if draftLines.length = 0 then .ok (w, stats1)
          else
            match comments.find? isConfirmation with
            | none =>
              if f.createConfirmation then .error (w, stats1)
              else
                let w1 := (w.createComment issueNumber
                  (confirmationBody draftLines)).2
                .ok (w1, stats1)
            | some confirmationComment =>
              if f.listReactions then .error (w, stats1)
              else if !((w.listReactions confirmationComment.id).any
                         (fun r => r.content = str "+1")) then
                .ok (w, stats1)
              else
                materializeLoop cfg f issueNumber issue 0 draftLines w stats1

/-- The outer catch of `processDrafts`: a throw escaping the `try` block
yields the world and statistics accumulated at the point of the throw. -/
def catchStats (e : Except (World × Stats) (World × Stats)) : World × Stats :=
  match e with
  | .ok r => r
  | .error r => r

/-- `processDrafts(issueNumber)`: after the two precondition checks (which
throw to the caller), every fault inside the `try` is caught and the
current statistics are returned. -/
def processDrafts (cfg : Config) (f : Faults) (issueNumber : Nat)
    (w : World) : Except JsError (World × Stats) :=
  if cfg.owner = [] || cfg.repo = [] then .error .configError
  else if issueNumber = 0 then .error .missingIssueNumber
  else .ok (catchStats (processDraftsTry cfg f issueNumber w))

/-! ### `findOrCreateDailyIssue` and `postCommentToDailyIssue` -/

/-- Template body of a freshly created daily tracking issue. -/
def dailyIssueBody (cfg : Config) (expectedTitle : Str) : Str :=
  str "# " ++ expectedTitle ++
  str "\n\nThis issue automatically tracks tasks and reminders for " ++
  cfg.today ++
  str ".\n\nPlease add any relevant notes or drafts below under the designated sections.\n\n## Reminders & Suggestions\n\n*No updates yet.*\n\n## Metrics & Status\n\n*No updates yet.*\n\n" ++
  DRAFT_SECTION_HEADER ++
  str "\n\n<!-- Add any draft notes or task ideas here. They will be processed into sub-issues if needed. -->\n\n"

/-- The expected title of the daily tracking issue for the run's date. -/
def expectedDailyTitle (cfg : Config) : Str :=
  DAILY_ISSUE_TITLE_PREFIX ++ str " " ++ cfg.today

/-- `findOrCreateDailyIssue()`: lists open issues carrying the tracking
label, selects the one with the exact expected title, and creates the
issue from the template when none matches.  Faults in either call rethrow
to the caller (the catch logs and rethrows). -/
def findOrCreateDailyIssue (cfg : Config) (failList failCreate : Bool)
    (w : World) : Except JsError ((Nat × Str) × World) :=
  if cfg.owner = [] || cfg.repo = [] then .error .configError
  else
    let expectedTitle := expectedDailyTitle cfg
    if failList then .error .apiError
    else
      let issues := w.openIssues.filter
        (fun i => i.labels.contains DAILY_ISSUE_LABEL)
      match issues.find? (fun i => i.title = expectedTitle) with
      | some existingIssue =>
        .ok ((existingIssue.number, existingIssue.html_url), w)
      | none =>
        if failCreate then .error .apiError
        else
          let created := w.createIssue expectedTitle
            (dailyIssueBody cfg expectedTitle) [DAILY_ISSUE_LABEL]
          .ok ((created.1.number, created.1.html_url), created.2)

/-- The generator's two-field result (`generateReminder` returns this or
`null`). -/
structure ReminderData where
  reminder : Str
  action_suggestions : Str

/-- Body of the posted summary comment. -/
def summaryCommentBody (cfg : Config) (rd : ReminderData) : Str :=
  str "### 🕒 自動タスク更新 (" ++ cfg.now ++
  str ")\n\n#### 🌟 リマインド\n\n" ++ rd.reminder ++
  str "\n\n#### 🔍 アクション提案\n\n" ++ rd.action_suggestions ++
  str "\n\n---\n*この更新は自動的に生成されています。アクションや提案は参考としてご活用ください。*"

/-- `postCommentToDailyIssue(issueNumber, reminderData)`: the precondition
checks throw to the caller; a fault while posting is caught and `null` is
returned; otherwise the new comment id is returned. -/
def postCommentToDailyIssue (cfg : Config) (failCreate : Bool)
    (issueNumber : Nat) (rd : Option ReminderData) (w : World) :
    Except JsError (Option Nat × World) :=
  if cfg.owner = [] || cfg.repo = [] then .error .configError
  else if issueNumber = 0 then .error .missingIssueNumber
  else
    match rd with
    | none => .error .missingReminderData
    | some r =>
      if r.reminder = [] || r.action_suggestions = [] then
        .error .missingReminderData
      else if failCreate then .ok (none, w)
      else
        let posted := w.createComment issueNumber (summaryCommentBody cfg r)
        .ok (some posted.1.id, posted.2)

/-! ### The orchestrator (`scripts/main.js`) -/

/-- Fault schedule for a whole `main` run. -/
structure MainFaults where
  dailyList : Bool
  dailyCreate : Bool
  collect : Bool
  post : Bool
  drafts : Faults

/-- Fault-free schedule for `main`. -/
def noMainFaults : MainFaults :=
  { dailyList := false, dailyCreate := false, collect := false,
    post := false, drafts := noFaults }

/-- How a `main` run ends: the outer catch fired; the early return after
`generateReminder` produced `null` (outputs report `"Generation failed"`
and `sub_issues_processed = "0"`); or normal completion with the posting
outcome and the draft statistics. -/
inductive MainOutcome where
  | fatalError
  | generationFailed (issueUrl : Str)
  | completed (issueUrl : Str) (posted : Bool) (stats : Stats)
  deriving DecidableEq

/-- Result of a `main` run, with flags recording whether the
comment-posting step (step 4) and the draft-processing step (step 5) were
reached. -/
structure MainResult where
  outcome : MainOutcome
  calledPostComment : Bool
  calledProcessDrafts : Bool
  deriving DecidableEq

/-- The orchestrator `main`: locate/create the daily issue, collect data,
generate the narrative (its result is passed in: `none` models the
generator returning `null` after its internal catch), post the summary,
then process drafts.  Any error thrown by a step is caught by the outer
catch (`fatalError`). -/
def mainRun (cfg : Config) (mf : MainFaults) (reminderResult : Option ReminderData)
    (w : World) : MainResult × World :=
  match findOrCreateDailyIssue cfg mf.dailyList mf.dailyCreate w with
  | .error _ =>
    ({ outcome := .fatalError, calledPostComment := false,
       calledProcessDrafts := false }, w)
  | .ok ((num, url), w1) =>
    if mf.collect then
      ({ outcome := .fatalError, calledPostComment := false,
         calledProcessDrafts := false }, w1)
    else
      match reminderResult with
      | none =>
        ({ outcome := .generationFailed url, calledPostComment := false,
           calledProcessDrafts := false }, w1)
      | some rd =>
        match postCommentToDailyIssue cfg mf.post num (some rd) w1 with
        | .error _ =>
          ({ outcome := .fatalError, calledPostComment := true,
             calledProcessDrafts := false }, w1)
        | .ok (commentResult, w2) =>
          match processDrafts cfg mf.drafts num w2 with
          | .error _ =>
            ({ outcome := .fatalError, calledPostComment := true,
               calledProcessDrafts := true }, w2)
          | .ok (w3, stats) =>
            ({ outcome := .completed url commentResult.isSome stats,
               calledPostComment := true, calledProcessDrafts := true }, w3)

/-! ### Helper lemmas about the string primitives -/

theorem jsIncludes_nil (s : Str) : jsIncludes s [] = true := by
  cases s <;> simp [jsIncludes, breakOnFirst]

/-- `breakOnFirst` finds an occurrence exactly when the separator is an
infix. -/
theorem breakOnFirst_isSome_iff (sub s : Str) :
    (breakOnFirst sub s).isSome = true ↔ sub <:+: s := by
  induction s with
  | nil =>
    simp only [breakOnFirst, List.infix_nil]
    split
    · rename_i h; simp [h]
    · rename_i h; simp [h]
  | cons c cs ih =>
    rw [List.infix_cons_iff, ← ih, ← List.isPrefixOf_iff_prefix]
    simp only [breakOnFirst]
    split
    · rename_i h; simp [h]
    · rename_i h
      cases hb : breakOnFirst sub cs with
      | none => simp [h, hb]
      | some p => obtain ⟨pre, post⟩ := p; simp [h, hb]

/-- `jsIncludes` is the infix relation. -/
theorem jsIncludes_eq_true_iff (s sub : Str) :
    jsIncludes s sub = true ↔ sub <:+: s := by
  unfold jsIncludes
  exact breakOnFirst_isSome_iff sub s

/-- An infix of `s` is an infix of `s ++ t`. -/
theorem infix_append_right {l s : Str} (t : Str) (h : l <:+: s) :
    l <:+: s ++ t :=
  h.trans ⟨[], t, by simp⟩

/-- An occurrence of `sub` inside `s` survives appending on the right. -/
theorem jsIncludes_append_left (s t sub : Str)
    (h : jsIncludes s sub = true) : jsIncludes (s ++ t) sub = true := by
  rw [jsIncludes_eq_true_iff] at h ⊢
  exact infix_append_right t h

/-- The confirmation-request body always contains the confirmation
marker (the marker sits inside the first literal piece of the body). -/
theorem confirmationBody_has_marker (L : List Str) :
    jsIncludes (confirmationBody L) CONFIRMATION_MARKER = true := by
  rw [jsIncludes_eq_true_iff]
  unfold confirmationBody
  have h1 : CONFIRMATION_MARKER <:+:
      str "### 下書きセクションからの子Issueの作成\n\n下書きセクションに " :=
    (jsIncludes_eq_true_iff _ _).mp (by decide)
  exact infix_append_right _ (infix_append_right _ (infix_append_right _
    (infix_append_right _ h1)))

/-- A comment freshly posted by `World.createComment` with the
confirmation-request body satisfies the confirmation search predicate. -/
theorem isConfirmation_createComment (w : World) (n : Nat) (L : List Str) :
    isConfirmation (w.createComment n (confirmationBody L)).1 = true := by
  simp [isConfirmation, World.createComment, confirmationBody_has_marker]

/-! ### C1: what a generator failure does to the orchestration -/

/-- Configuration used by the concrete runs below. -/
def cfgEx : Config :=
  { owner := str "yutosuda", repo := str "my-template",
    today := str "2025-10-12", now := str "2025-10-12T00:00:00.000Z" }

/-- The daily tracking issue of the concrete runs: correct label and
expected title, and a drafts section holding one well-formed draft line. -/
def dailyIssueEx : Issue :=
  { number := 7, title := str "Task Status 2025-10-12",
    html_url := str "https://github.test/issues/7",
    body := str "# Task Status 2025-10-12\n\n## メモ・下書き\n\n- Write the quarterly report\n",
    labels := [str "daily-task-summary"] }

/-- A tracker state holding just the daily tracking issue, with no
comments and no reactions. -/
def wEx : World :=
  { openIssues := [dailyIssueEx], comments := [], reactions := [],
    nextIssueNumber := 8, nextCommentId := 100 }

/-- C1 counterexample: a run in which every external call succeeds but the
generator returns a failure (`null`).  The orchestrator returns at step 3:
the draft-processing step is never invoked (`calledProcessDrafts = false`)
and the tracker is untouched, even though the daily issue holds a
processable draft (`processDrafts` on the same state would report one
processed draft).  This refutes the claim that a generator failure still
lets drafts be evaluated. -/
theorem C1_counterexample :
    mainRun cfgEx noMainFaults none wEx =
      ({ outcome := .generationFailed (str "https://github.test/issues/7"),
         calledPostComment := false, calledProcessDrafts := false }, wEx) ∧
    ((processDrafts cfgEx noFaults 7 wEx).toOption.getD
        (wEx, { processed := 0, created := 0, existed := 0 })).2.processed
      = 1 := by
  constructor
  · decide
  · decide

/-- C1 (as amended): whenever the narrative generator returns a failure,
the orchestrator skips the comment-posting step and also skips the
draft-processing step; no run with a failed generation ever reports
completed statistics. -/
theorem C1_generator_failure_skips_posting_and_drafts
    (cfg : Config) (mf : MainFaults) (w : World) :
    (mainRun cfg mf none w).1.calledPostComment = false ∧
    (mainRun cfg mf none w).1.calledProcessDrafts = false ∧
    (∀ url posted stats,
      (mainRun cfg mf none w).1.outcome ≠ .completed url posted stats) := by
  unfold mainRun
  cases h : findOrCreateDailyIssue cfg mf.dailyList mf.dailyCreate w with
  | error e => simp
  | ok r =>
    obtain ⟨⟨num, url⟩, w1⟩ := r
    by_cases hc : mf.collect <;> simp [hc]

/-! ### C6: idempotence of the daily-issue locator -/

/-- C6: when an open issue carrying the tracking label and the exact
expected title exists, `findOrCreateDailyIssue` mutates nothing and
returns that issue's number and URL; a second call under the same tracker
state (whatever its create-fault behaviour) returns the identical
identity, and no second issue is ever created. -/
theorem C6_locator_idempotent (cfg : Config) (w : World) (b b' : Bool)
    (i0 : Issue)
    (howner : cfg.owner ≠ []) (hrepo : cfg.repo ≠ [])
    (hfind : (w.openIssues.filter
        (fun i => i.labels.contains DAILY_ISSUE_LABEL)).find?
        (fun i => i.title = expectedDailyTitle cfg) = some i0) :
    findOrCreateDailyIssue cfg false b w =
      .ok ((i0.number, i0.html_url), w) ∧
    findOrCreateDailyIssue cfg false b' w =
      .ok ((i0.number, i0.html_url), w) := by
  unfold findOrCreateDailyIssue
  simp at hfind
  simp [howner, hrepo, hfind]

/-- C6 witness: with the daily issue of `wEx` already present, both calls
return its identity and leave the tracker unchanged. -/
theorem C6_witness :
    findOrCreateDailyIssue cfgEx false false wEx =
      .ok ((dailyIssueEx.number, dailyIssueEx.html_url), wEx) ∧
    findOrCreateDailyIssue cfgEx false true wEx =
      .ok ((dailyIssueEx.number, dailyIssueEx.html_url), wEx) :=
  C6_locator_idempotent cfgEx wEx false true dailyIssueEx
    (by decide) (by decide) (by decide)

/-! ### C7: draft extraction on the specified region -/

/-- An issue body whose drafts region reads `"- Do A\n- Do B\n## Next"`,
with further content after the next heading. -/
def c7Body : Str := str "intro\n## メモ・下書き\n- Do A\n- Do B\n## Next\n- Do C"

/-- C7: extraction takes the text after the drafts header up to the next
`"##"`, trims it, and keeps exactly the list-syntax lines: on `c7Body` the
region is `"- Do A\n- Do B"`, the draft lines are exactly the two bullet
lines with titles `"Do A"` and `"Do B"`, and nothing from `"## Next"`
onwards (in particular `"- Do C"`) is extracted. -/
theorem C7_extraction_on_example :
    draftsContentOf c7Body = some (str "- Do A\n- Do B") ∧
    draftLinesOf (str "- Do A\n- Do B") = [str "- Do A", str "- Do B"] ∧
    (draftLinesOf (str "- Do A\n- Do B")).map draftTitleOf
      = [str "Do A", str "Do B"] := by
  refine ⟨by decide, by decide, by decide⟩

/-! ### C8: empty or placeholder drafts region -/

/-- C8: when the tracking issue's drafts region trims to nothing, or
still contains the template's placeholder comment, `processDrafts`
returns zero statistics and leaves the tracker untouched (no comment
posted, no issue created), whatever the fault schedule. -/
theorem C8_placeholder_region_yields_zero (cfg : Config) (f : Faults)
    (n : Nat) (w : World) (issue : Issue) (content : Str)
    (howner : cfg.owner ≠ []) (hrepo : cfg.repo ≠ []) (hn : n ≠ 0)
    (hget : w.getIssue n = some issue)
    (hcontent : draftsContentOf issue.body = some content)
    (hzero : content = [] ∨ jsIncludes content PLACEHOLDER_MARKER = true) :
    processDrafts cfg f n w =
      .ok (w, { processed := 0, created := 0, existed := 0 }) := by
  unfold processDrafts
  simp only [howner, hrepo, hn, decide_eq_true_eq]
  unfold processDraftsTry
  by_cases hg : f.getIssue
  · simp [hg, catchStats, howner, hrepo, hn]
  · rcases hzero with h | h
    · simp [hg, hget, hcontent, h, catchStats, howner, hrepo, hn]
    · simp [hg, hget, hcontent, h, catchStats, howner, hrepo, hn]

/-- The daily tracking issue as freshly created from the template: its
drafts region still holds only the placeholder comment. -/
def issueC8 : Issue :=
  { number := 3, title := expectedDailyTitle cfgEx,
    html_url := issueUrl 3,
    body := dailyIssueBody cfgEx (expectedDailyTitle cfgEx),
    labels := [DAILY_ISSUE_LABEL] }

/-- Tracker state holding only the fresh template issue. -/
def wC8 : World :=
  { openIssues := [issueC8], comments := [], reactions := [],
    nextIssueNumber := 4, nextCommentId := 1 }

set_option maxRecDepth 16000 in
/-- C8 witness: on the fresh template body the drafts region is exactly
the placeholder comment and the run returns zero statistics with the
tracker unchanged. -/
theorem C8_witness :
    processDrafts cfgEx noFaults 3 wC8 =
      .ok (wC8, { processed := 0, created := 0, existed := 0 }) :=
  C8_placeholder_region_yields_zero cfgEx noFaults 3 wC8 issueC8
    (str "<!-- Add any draft notes or task ideas here. They will be processed into sub-issues if needed. -->")
    (by decide) (by decide) (by decide) (by decide) (by decide)
    (Or.inr (by decide))

/-! ### C2: no sub-issue creation without the approving reaction -/

/-- Decidable equality of `Except` results, for evaluating concrete
runs. -/
instance {ε α : Type} [DecidableEq ε] [DecidableEq α] :
    DecidableEq (Except ε α) := fun a b =>
  match a, b with
  | .ok x, .ok y =>
    if h : x = y then .isTrue (by rw [h]) else .isFalse (by simp [h])
  | .error x, .error y =>
    if h : x = y then .isTrue (by rw [h]) else .isFalse (by simp [h])
  | .ok _, .error _ => .isFalse (by simp)
  | .error _, .ok _ => .isFalse (by simp)

/-- No comment of the tracking issue is a confirmation request carrying
the `"+1"` reaction. -/
def noApprovedConfirmation (w : World) (n : Nat) : Prop :=
  ∀ c ∈ w.listComments n, isConfirmation c = true →
    (w.listReactions c.id).any (fun r => r.content = str "+1") = false

/-- Under `noApprovedConfirmation`, the `try` body of `processDrafts`
never reaches the materialization loop: whatever it returns (normally or
through the outer catch) leaves the open issues unchanged with zero
created and existed counters. -/
theorem processDraftsTry_no_approval (cfg : Config) (f : Faults) (n : Nat)
    (w : World) (hnoappr : noApprovedConfirmation w n) :
    (catchStats (processDraftsTry cfg f n w)).1.openIssues = w.openIssues ∧
    (catchStats (processDraftsTry cfg f n w)).2.created = 0 ∧
    (catchStats (processDraftsTry cfg f n w)).2.existed = 0 := by
  unfold processDraftsTry
  by_cases hg : f.getIssue
  · simp [hg, catchStats]
  · cases hget : w.getIssue n with
    | none => simp [hg, hget, catchStats]
    | some issue =>
      cases hcon : draftsContentOf issue.body with
      | none => simp [hg, hget, hcon, catchStats]
      | some dc =>
        by_cases hpc : (dc = [] || jsIncludes dc PLACEHOLDER_MARKER) = true
        · simp [hg, hget, hcon, hpc, catchStats]
        · by_cases hlc : f.listComments
          · simp [hg, hget, hcon, hpc, hlc, catchStats]
          · by_cases hlen : (draftLinesOf dc).length = 0
            · simp [hg, hget, hcon, hpc, hlc, hlen, catchStats]
            · cases hfind : (w.listComments n).find? isConfirmation with
              | none =>
                by_cases hcc : f.createConfirmation
                · simp [hg, hget, hcon, hpc, hlc, hlen, hfind, hcc,
                        catchStats]
                · simp [hg, hget, hcon, hpc, hlc, hlen, hfind, hcc,
                        catchStats, World.createComment]
              | some cc =>
                have hmem : cc ∈ w.listComments n :=
                  List.mem_of_find?_eq_some hfind
                have hpred : isConfirmation cc = true :=
                  List.find?_some hfind
                have hno := hnoappr cc hmem hpred
                by_cases hlr : f.listReactions
                · simp [hg, hget, hcon, hpc, hlc, hlen, hfind, hlr,
                        catchStats]
                · simp [hg, hget, hcon, hpc, hlc, hlen, hfind, hlr, hno,
                        catchStats]

/-- C2: as long as no confirmation comment (marker plus Bot author) on
the tracking issue carries a `"+1"` reaction, a `processDrafts` run
creates no issue at all and returns statistics with zero created and
zero existed counts. -/
theorem C2_no_subissue_without_reaction (cfg : Config) (f : Faults)
    (n : Nat) (w w2 : World) (s : Stats)
    (hnoappr : noApprovedConfirmation w n)
    (hrun : processDrafts cfg f n w = .ok (w2, s)) :
    w2.openIssues = w.openIssues ∧ s.created = 0 ∧ s.existed = 0 := by
  unfold processDrafts at hrun
  by_cases h1 : (cfg.owner = [] || cfg.repo = []) = true
  · rw [if_pos h1] at hrun; cases hrun
  · rw [if_neg h1] at hrun
    by_cases h2 : n = 0
    · rw [if_pos h2] at hrun; cases hrun
    · rw [if_neg h2] at hrun
      have heq : catchStats (processDraftsTry cfg f n w) = (w2, s) := by
        injection hrun
      have hmain := processDraftsTry_no_approval cfg f n w hnoappr
      rw [heq] at hmain
      exact hmain

instance (w : World) (n : Nat) : Decidable (noApprovedConfirmation w n) := by
  unfold noApprovedConfirmation
  infer_instance

/-- Result of the fault-free run on `wEx` (one fresh draft, no comments,
no reactions). -/
def c2Run : World × Stats :=
  (processDrafts cfgEx noFaults 7 wEx).toOption.getD
    (wEx, { processed := 0, created := 0, existed := 0 })

set_option maxRecDepth 16000 in
/-- C2 witness: on `wEx` (no confirmation comment, hence no approving
reaction) the run leaves the open issues unchanged and reports zero
created and existed counts. -/
theorem C2_witness :
    c2Run.1.openIssues = wEx.openIssues ∧
    c2Run.2.created = 0 ∧ c2Run.2.existed = 0 :=
  C2_no_subissue_without_reaction cfgEx noFaults 7 wEx c2Run.1 c2Run.2
    (by decide) (by decide)

/-! ### C4: per-item deduplication against freshly fetched open issues -/

/-- C4: for a draft item whose stripped title is non-empty, with no fault
on this item's calls: when some open issue's title case-insensitively
equals or case-insensitively contains the draft title, the item is counted
as existed and no issue is created; otherwise exactly one new issue with
the draft title is created and counted. -/
theorem C4_dedup_decides_creation (cfg : Config) (n : Nat) (parent : Issue)
    (idx : Nat) (draft : Str) (w : World) (stats : Stats)
    (hne : draftTitleOf draft ≠ []) :
    (existsSimilar w.openIssues (draftTitleOf draft) = true →
      materializeLoop cfg noFaults n parent idx [draft] w stats =
        .ok (w, { stats with existed := stats.existed + 1 })) ∧
    (existsSimilar w.openIssues (draftTitleOf draft) = false →
      ∃ w2, materializeLoop cfg noFaults n parent idx [draft] w stats =
        .ok (w2, { stats with created := stats.created + 1 }) ∧
        w2.openIssues.map Issue.title =
          w.openIssues.map Issue.title ++ [draftTitleOf draft]) := by
  constructor
  · intro hsim
    unfold materializeLoop
    simp [hne, noFaults, hsim, materializeLoop]
  · intro hsim
    refine ⟨((w.createIssue (draftTitleOf draft)
        (subIssueBody cfg n parent (draftTitleOf draft))
        [SUB_ISSUE_LABEL]).2.createComment n
        (refCommentBody (draftTitleOf draft)
          (w.createIssue (draftTitleOf draft)
            (subIssueBody cfg n parent (draftTitleOf draft))
            [SUB_ISSUE_LABEL]).1.number)).2, ?_, ?_⟩
    · unfold materializeLoop
      simp [hne, noFaults, hsim, materializeLoop]
    · simp [World.createIssue, World.createComment]

/-- C4 witness: on `wEx` (no similar issue for `"alpha task"`) the single
item is created and counted. -/
theorem C4_witness :
    ∃ w2, materializeLoop cfgEx noFaults 7 dailyIssueEx 0
        [str "- alpha task"] wEx
        { processed := 1, created := 0, existed := 0 } =
      .ok (w2, { processed := 1, created := 1, existed := 0 }) ∧
      w2.openIssues.map Issue.title =
        wEx.openIssues.map Issue.title ++ [str "alpha task"] :=
  (C4_dedup_decides_creation cfgEx 7 dailyIssueEx 0 (str "- alpha task")
    wEx { processed := 1, created := 0, existed := 0 } (by decide)).2
    (by decide)

/-! ### C9: read-your-writes inside one approved batch -/

/-- C9: items are handled in source order and the open-issue list is
re-fetched before each item's dedup check, so an item whose title is
case-insensitively equal to (or contained in) the title just created by
the previous item of the same batch is counted as existed: for a
fault-free batch `[d1, d2]` where `d1` has no pre-existing similar issue
and `d2`'s title relates to `d1`'s, exactly one issue (titled after `d1`)
is created and `d2` is recorded as existed. -/
theorem C9_batch_observes_own_creations (cfg : Config) (n : Nat)
    (parent : Issue) (idx : Nat) (d1 d2 : Str) (w : World) (stats : Stats)
    (h1 : draftTitleOf d1 ≠ []) (h2 : draftTitleOf d2 ≠ [])
    (hnew : existsSimilar w.openIssues (draftTitleOf d1) = false)
    (hsim : toLowerStr (draftTitleOf d1) = toLowerStr (draftTitleOf d2) ∨
      jsIncludes (toLowerStr (draftTitleOf d1))
        (toLowerStr (draftTitleOf d2)) = true) :
    ∃ w2, materializeLoop cfg noFaults n parent idx [d1, d2] w stats =
      .ok (w2, { processed := stats.processed,
                 created := stats.created + 1,
                 existed := stats.existed + 1 }) ∧
      w2.openIssues.map Issue.title =
        w.openIssues.map Issue.title ++ [draftTitleOf d1] := by
  have hsim2 : ∀ w1 : World,
      w1.openIssues = w.openIssues ++
        [(w.createIssue (draftTitleOf d1)
          (subIssueBody cfg n parent (draftTitleOf d1)) [SUB_ISSUE_LABEL]).1] →
      existsSimilar w1.openIssues (draftTitleOf d2) = true := by
    intro w1 hw1
    rw [hw1]
    unfold existsSimilar
    rw [List.any_append]
    apply Bool.or_eq_true_iff.mpr
    right
    simp only [World.createIssue, List.any_cons, List.any_nil,
      Bool.or_false]
    rcases hsim with h | h
    · simp [h]
    · simp [h]
  refine ⟨((w.createIssue (draftTitleOf d1)
      (subIssueBody cfg n parent (draftTitleOf d1))
      [SUB_ISSUE_LABEL]).2.createComment n
      (refCommentBody (draftTitleOf d1)
        (w.createIssue (draftTitleOf d1)
          (subIssueBody cfg n parent (draftTitleOf d1))
          [SUB_ISSUE_LABEL]).1.number)).2, ?_, ?_⟩
  · unfold materializeLoop
    simp only [h1, hnew, noFaults, Bool.false_eq_true, if_false, ite_false,
      ne_eq, not_false_eq_true, if_neg h1]
    unfold materializeLoop
    have hsim2' := hsim2 ((w.createIssue (draftTitleOf d1)
      (subIssueBody cfg n parent (draftTitleOf d1))
      [SUB_ISSUE_LABEL]).2.createComment n
      (refCommentBody (draftTitleOf d1)
        (w.createIssue (draftTitleOf d1)
          (subIssueBody cfg n parent (draftTitleOf d1))
          [SUB_ISSUE_LABEL]).1.number)).2
      (by simp [World.createIssue, World.createComment])
    simp [h1, h2, hnew, noFaults, hsim2', materializeLoop]
  · simp [World.createIssue, World.createComment]

/-- C9 witness: a fault-free batch of two bullet drafts whose second
title is a case-variant substring of the first creates the first and
records the second as existed. -/
theorem C9_witness :
    ∃ w2, materializeLoop cfgEx noFaults 7 dailyIssueEx 0
        [str "- Refactor Database Module Further", str "- refactor database module"]
        wEx { processed := 2, created := 0, existed := 0 } =
      .ok (w2, { processed := 2, created := 1, existed := 1 }) ∧
      w2.openIssues.map Issue.title =
        wEx.openIssues.map Issue.title ++
          [str "Refactor Database Module Further"] :=
  C9_batch_observes_own_creations cfgEx 7 dailyIssueEx 0
    (str "- Refactor Database Module Further")
    (str "- refactor database module") wEx
    { processed := 2, created := 0, existed := 0 }
    (by decide) (by decide) (by decide) (Or.inr (by decide))

/-! ### C5: failure isolation inside the materialization loop -/

/-- Three well-formed, pairwise non-similar drafts. -/
def drafts3 : List Str :=
  [str "- alpha feature", str "- beta feature", str "- gamma feature"]

/-- Tracker state for the loop runs: just the parent issue. -/
def wLoop : World :=
  { openIssues := [dailyIssueEx], comments := [], reactions := [],
    nextIssueNumber := 10, nextCommentId := 50 }

/-- Fault schedule: the per-item open-issue fetch exhausts its retries on
the second item. -/
def faultsListAt1 : Faults :=
  { noFaults with listOpenIssues := fun i => i == 1 }

/-- Fault schedule: creating the sub-issue of the second item exhausts
its retries. -/
def faultsCreateAt1 : Faults :=
  { noFaults with createSubIssue := fun i => i == 1 }

/-- State and statistics at which the loop run under `faultsListAt1`
ends (normally or by a throw). -/
def c5BadRun : World × Stats :=
  catchStats (materializeLoop cfgEx faultsListAt1 7 dailyIssueEx 0 drafts3
    wLoop { processed := 3, created := 0, existed := 0 })

set_option maxRecDepth 16000 in
/-- C5 counterexample: a failure while handling the second draft item —
its open-issue fetch, which sits outside the per-item inner `try` — is
NOT caught by the loop: the batch aborts with a throw, only the first
item's issue exists, and the third item is never processed, contradicting
"processing continues with all remaining items" for that failure. -/
theorem C5_counterexample :
    (materializeLoop cfgEx faultsListAt1 7 dailyIssueEx 0 drafts3 wLoop
      { processed := 3, created := 0, existed := 0 }).isOk = false ∧
    c5BadRun.2 = { processed := 3, created := 1, existed := 0 } ∧
    c5BadRun.1.openIssues.map Issue.title =
      [str "Task Status 2025-10-12", str "alpha feature"] := by
  refine ⟨by decide, by decide, by decide⟩

/-- State and statistics of the loop run under `faultsCreateAt1`. -/
def c5GoodRun : World × Stats :=
  catchStats (materializeLoop cfgEx faultsCreateAt1 7 dailyIssueEx 0 drafts3
    wLoop { processed := 3, created := 0, existed := 0 })

set_option maxRecDepth 16000 in
/-- C5 (as amended): a failure in the per-item creation phase (sub-issue
creation or back-reference comment) is caught and processing continues
with all remaining items — as long as the per-item open-issue fetches
succeed, the loop always completes normally; in particular, when creating
the 2nd of 3 sub-issues fails, the 1st and 3rd are still created and the
statistics are `{created := 2, existed := 0}`.  (A failure of the
per-item open-issue fetch instead aborts the remaining items through the
outer catch.) -/
theorem C5_creation_failure_isolated :
    (∀ (cfg : Config) (f : Faults) (n : Nat) (parent : Issue) (idx : Nat)
       (drafts : List Str) (w : World) (stats : Stats),
      (∀ i, f.listOpenIssues i = false) →
      (materializeLoop cfg f n parent idx drafts w stats).isOk = true) ∧
    ((materializeLoop cfgEx faultsCreateAt1 7 dailyIssueEx 0 drafts3 wLoop
        { processed := 3, created := 0, existed := 0 }).isOk = true ∧
     c5GoodRun.2 = { processed := 3, created := 2, existed := 0 } ∧
     c5GoodRun.1.openIssues.map Issue.title =
       [str "Task Status 2025-10-12", str "alpha feature",
        str "gamma feature"]) := by
  constructor
  · intro cfg f n parent idx drafts w stats hf
    induction drafts generalizing idx w stats with
    | nil => simp [materializeLoop, Except.isOk, Except.toBool]
    | cons d rest ih =>
      unfold materializeLoop
      by_cases h1 : draftTitleOf d = []
      · simp only [h1, if_pos]
        exact ih ..
      · simp only [if_neg h1, hf idx, Bool.false_eq_true, if_false]
        by_cases h2 : existsSimilar w.openIssues (draftTitleOf d) = true
        · simp only [h2, if_true]
          exact ih ..
        · simp only [h2, if_false, Bool.false_eq_true]
          by_cases h3 : f.createSubIssue idx = true
          · simp only [h3, if_true]
            exact ih ..
          · simp only [h3, if_false, Bool.false_eq_true]
            by_cases h4 : f.createRefComment idx = true
            · simp only [h4, if_true]
              exact ih ..
            · simp only [h4, if_false, Bool.false_eq_true]
              exact ih ..
  · refine ⟨by decide, by decide, by decide⟩

/-- C5 witness: the completion guarantee of the amended claim applied to
the fault-free schedule on the concrete batch. -/
theorem C5_witness :
    (materializeLoop cfgEx noFaults 7 dailyIssueEx 0 drafts3 wLoop
      { processed := 3, created := 0, existed := 0 }).isOk = true :=
  C5_creation_failure_isolated.1 cfgEx noFaults 7 dailyIssueEx 0 drafts3
    wLoop { processed := 3, created := 0, existed := 0 } (fun _ => rfl)

/-! ### C10: totality and the statistics invariant -/

/-- Loop invariant: however the materialization loop ends (normally or by
a throw reaching the outer catch), it increases the created and existed
counters by at most one per item in total and never touches the processed
counter. -/
theorem materializeLoop_stats (cfg : Config) (f : Faults) (n : Nat)
    (parent : Issue) :
    ∀ (drafts : List Str) (idx : Nat) (w : World) (stats : Stats),
      (catchStats (materializeLoop cfg f n parent idx drafts w stats)).2.created +
        (catchStats (materializeLoop cfg f n parent idx drafts w stats)).2.existed ≤
        stats.created + stats.existed + drafts.length ∧
      (catchStats (materializeLoop cfg f n parent idx drafts w stats)).2.processed =
        stats.processed := by
  intro drafts
  induction drafts with
  | nil =>
    intro idx w stats
    simp [materializeLoop, catchStats]
  | cons d rest ih =>
    intro idx w stats
    unfold materializeLoop
    by_cases h1 : draftTitleOf d = []
    · simp only [h1, if_pos]
      obtain ⟨ha, hb⟩ := ih (idx + 1) w stats
      exact ⟨by simp only [List.length_cons]; omega, hb⟩
    · simp only [if_neg h1]
      by_cases hlo : f.listOpenIssues idx = true
      · simp only [hlo, if_true]
        simp [catchStats]
      · simp only [hlo, Bool.false_eq_true, if_false]
        by_cases h2 : existsSimilar w.openIssues (draftTitleOf d) = true
        · simp only [h2, if_true]
          obtain ⟨ha, hb⟩ := ih (idx + 1) w
            { stats with existed := stats.existed + 1 }
          exact ⟨by simp only [List.length_cons] at *; omega, hb⟩
        · simp only [h2, if_false, Bool.false_eq_true]
          by_cases h3 : f.createSubIssue idx = true
          · simp only [h3, if_true]
            obtain ⟨ha, hb⟩ := ih (idx + 1) w stats
            exact ⟨by simp only [List.length_cons]; omega, hb⟩
          · simp only [h3, if_false, Bool.false_eq_true]
            by_cases h4 : f.createRefComment idx = true
            · simp only [h4, if_true]
              obtain ⟨ha, hb⟩ := ih (idx + 1)
                (w.createIssue (draftTitleOf d)
                  (subIssueBody cfg n parent (draftTitleOf d))
                  [SUB_ISSUE_LABEL]).2
                { stats with created := stats.created + 1 }
              exact ⟨by simp only [List.length_cons] at *; omega, hb⟩
            · simp only [h4, if_false, Bool.false_eq_true]
              obtain ⟨ha, hb⟩ := ih (idx + 1)
                (((w.createIssue (draftTitleOf d)
                  (subIssueBody cfg n parent (draftTitleOf d))
                  [SUB_ISSUE_LABEL]).2).createComment n
                  (refCommentBody (draftTitleOf d)
                    (w.createIssue (draftTitleOf d)
                      (subIssueBody cfg n parent (draftTitleOf d))
                      [SUB_ISSUE_LABEL]).1.number)).2
                { stats with created := stats.created + 1 }
              exact ⟨by simp only [List.length_cons] at *; omega, hb⟩

/-- The statistics invariant for the whole `try` body: created plus
existed never exceeds processed, and a non-zero processed count is
exactly the number of list-syntax draft lines of the extracted region. -/
theorem processDraftsTry_stats (cfg : Config) (f : Faults) (n : Nat)
    (w : World) :
    (catchStats (processDraftsTry cfg f n w)).2.created +
      (catchStats (processDraftsTry cfg f n w)).2.existed ≤
      (catchStats (processDraftsTry cfg f n w)).2.processed ∧
    ((catchStats (processDraftsTry cfg f n w)).2.processed = 0 ∨
      ∃ issue dc, w.getIssue n = some issue ∧
        draftsContentOf issue.body = some dc ∧
        (catchStats (processDraftsTry cfg f n w)).2.processed =
          (draftLinesOf dc).length) := by
  unfold processDraftsTry
  by_cases hg : f.getIssue
  · simp [hg, catchStats]
  · cases hget : w.getIssue n with
    | none => simp [hg, hget, catchStats]
    | some issue =>
      cases hcon : draftsContentOf issue.body with
      | none => simp [hg, hget, hcon, catchStats]
      | some dc =>
        by_cases hpc : (dc = [] || jsIncludes dc PLACEHOLDER_MARKER) = true
        · simp [hg, hget, hcon, hpc, catchStats]
        · by_cases hlc : f.listComments
          · simp [hg, hget, hcon, hpc, hlc, catchStats]
          · by_cases hlen : (draftLinesOf dc).length = 0
            · simp [hg, hget, hcon, hpc, hlc, hlen, catchStats]
            · cases hfind : (w.listComments n).find? isConfirmation with
              | none =>
                by_cases hcc : f.createConfirmation
                · simp only [hg, hget, hcon, hpc, hlc, hlen, hfind, hcc,
                    Bool.false_eq_true, if_false, if_true, ite_false,
                    ite_true, catchStats]
                  exact ⟨by omega, Or.inr ⟨issue, dc, rfl, hcon, rfl⟩⟩
                · simp only [hg, hget, hcon, hpc, hlc, hlen, hfind, hcc,
                    Bool.false_eq_true, if_false, if_true, ite_false,
                    ite_true, catchStats]
                  exact ⟨by omega, Or.inr ⟨issue, dc, rfl, hcon, rfl⟩⟩
              | some cc =>
                by_cases hlr : f.listReactions
                · simp only [hg, hget, hcon, hpc, hlc, hlen, hfind, hlr,
                    Bool.false_eq_true, if_false, if_true, ite_false,
                    ite_true, catchStats]
                  exact ⟨by omega, Or.inr ⟨issue, dc, rfl, hcon, rfl⟩⟩
                · by_cases hth : ((w.listReactions cc.id).any
                      (fun r => r.content = str "+1")) = true
                  · simp only [hg, hget, hcon, hpc, hlc, hlen, hfind, hlr,
                      hth, Bool.not_true, Bool.false_eq_true, if_false,
                      if_true, ite_false, ite_true]
                    obtain ⟨ha, hb⟩ := materializeLoop_stats cfg f n issue
                      (draftLinesOf dc) 0 w
                      { processed := (draftLinesOf dc).length,
                        created := 0, existed := 0 }
                    refine ⟨?_, Or.inr ⟨issue, dc, rfl, hcon, hb⟩⟩
                    rw [hb]
                    simpa using ha
                  · simp only [hg, hget, hcon, hpc, hlc, hlen, hfind, hlr,
                      hth, Bool.not_false, Bool.false_eq_true, if_false,
                      if_true, ite_false, ite_true, catchStats]
                    exact ⟨by omega, Or.inr ⟨issue, dc, rfl, hcon, rfl⟩⟩

/-- C10: with the repository configured and a non-zero issue number,
`processDrafts` always returns normally (every post-precondition fault is
caught and the accumulated statistics are returned), the returned
statistics satisfy `created + existed ≤ processed`, and a non-zero
processed count equals the number of list-syntax draft lines of the
extracted drafts region. -/
theorem C10_no_fault_escapes_and_stats_bounded (cfg : Config) (f : Faults)
    (n : Nat) (w : World)
    (howner : cfg.owner ≠ []) (hrepo : cfg.repo ≠ []) (hn : n ≠ 0) :
    ∃ w2 s, processDrafts cfg f n w = .ok (w2, s) ∧
      s.created + s.existed ≤ s.processed ∧
      (s.processed = 0 ∨ ∃ issue dc, w.getIssue n = some issue ∧
        draftsContentOf issue.body = some dc ∧
        s.processed = (draftLinesOf dc).length) := by
  refine ⟨(catchStats (processDraftsTry cfg f n w)).1,
          (catchStats (processDraftsTry cfg f n w)).2, ?_, ?_⟩
  · unfold processDrafts
    simp [howner, hrepo, hn]
  · exact processDraftsTry_stats cfg f n w

set_option maxRecDepth 16000 in
/-- C10 witness: the invariant applied to a concrete fault-free run on
`wEx`. -/
theorem C10_witness :
    ∃ w2 s, processDrafts cfgEx noFaults 7 wEx = .ok (w2, s) ∧
      s.created + s.existed ≤ s.processed ∧
      (s.processed = 0 ∨ ∃ issue dc, wEx.getIssue 7 = some issue ∧
        draftsContentOf issue.body = some dc ∧
        s.processed = (draftLinesOf dc).length) :=
  C10_no_fault_escapes_and_stats_bounded cfgEx noFaults 7 wEx
    (by decide) (by decide) (by decide)

/-! ### C3: the two-phase confirmation gate -/

/-- First phase of the gate inside the `try` body: with extractable
non-placeholder drafts and no prior confirmation comment, the run posts
the confirmation comment and returns with only the processed count
set. -/
theorem processDraftsTry_posts_confirmation (cfg : Config) (n : Nat)
    (w : World) (issue : Issue) (dc : Str)
    (hget : w.getIssue n = some issue)
    (hcon : draftsContentOf issue.body = some dc)
    (hne : dc ≠ []) (hph : jsIncludes dc PLACEHOLDER_MARKER = false)
    (hL : draftLinesOf dc ≠ [])
    (hnoconf : ∀ c ∈ w.listComments n, isConfirmation c = false) :
    processDraftsTry cfg noFaults n w =
      .ok ((w.createComment n (confirmationBody (draftLinesOf dc))).2,
        { processed := (draftLinesOf dc).length,
          created := 0, existed := 0 }) := by
  have hlen : ¬((draftLinesOf dc).length = 0) := by
    simpa [List.length_eq_zero] using hL
  have hfind : (w.listComments n).find? isConfirmation = none :=
    List.find?_eq_none.mpr (fun c hc => by simp [hnoconf c hc])
  unfold processDraftsTry
  simp [hget, hcon, hne, hph, hlen, hfind, noFaults]

/-- C3: with N well-formed draft lines, a non-placeholder region, and no
prior confirmation comment, one fault-free run posts exactly one new
comment — the confirmation request enumerating the draft lines — creates
no issue, and returns `{processed := N, created := 0, existed := 0}`;
running again on the resulting state (confirmation present, no reaction
on it) returns the same statistics and changes nothing: no additional
confirmation comment, no issue. -/
theorem C3_two_phase_gate (cfg : Config) (n : Nat) (w : World)
    (issue : Issue) (dc : Str)
    (howner : cfg.owner ≠ []) (hrepo : cfg.repo ≠ []) (hn : n ≠ 0)
    (hget : w.getIssue n = some issue)
    (hcon : draftsContentOf issue.body = some dc)
    (hne : dc ≠ []) (hph : jsIncludes dc PLACEHOLDER_MARKER = false)
    (hL : draftLinesOf dc ≠ [])
    (hnoconf : ∀ c ∈ w.listComments n, isConfirmation c = false)
    (hfresh : ∀ r ∈ w.reactions, r.commentId ≠ w.nextCommentId) :
    ∃ w1 newComment,
      processDrafts cfg noFaults n w = .ok (w1,
        { processed := (draftLinesOf dc).length,
          created := 0, existed := 0 }) ∧
      w1.comments = w.comments ++ [newComment] ∧
      newComment.issueNumber = n ∧
      newComment.body = confirmationBody (draftLinesOf dc) ∧
      isConfirmation newComment = true ∧
      w1.openIssues = w.openIssues ∧
      w1.reactions = w.reactions ∧
      processDrafts cfg noFaults n w1 = .ok (w1,
        { processed := (draftLinesOf dc).length,
          created := 0, existed := 0 }) := by
  have hlen : ¬((draftLinesOf dc).length = 0) := by
    simpa [List.length_eq_zero] using hL
  have hfind : (w.listComments n).find? isConfirmation = none :=
    List.find?_eq_none.mpr (fun c hc => by simp [hnoconf c hc])
  have hrun1 := processDraftsTry_posts_confirmation cfg n w issue dc hget
    hcon hne hph hL hnoconf
  refine ⟨(w.createComment n (confirmationBody (draftLinesOf dc))).2,
    (w.createComment n (confirmationBody (draftLinesOf dc))).1,
    ?_, by simp [World.createComment], rfl, rfl,
    isConfirmation_createComment w n (draftLinesOf dc), rfl, rfl, ?_⟩
  · unfold processDrafts
    simp [howner, hrepo, hn, hrun1, catchStats]
  · have hw1get : ((w.createComment n
        (confirmationBody (draftLinesOf dc))).2).getIssue n = some issue := by
      simpa [World.createComment, World.getIssue] using hget
    have hw1comments : ((w.createComment n
        (confirmationBody (draftLinesOf dc))).2).listComments n =
        w.listComments n ++
          [(w.createComment n (confirmationBody (draftLinesOf dc))).1] := by
      simp [World.createComment, World.listComments]
    have hfind2 : (((w.createComment n
        (confirmationBody (draftLinesOf dc))).2).listComments n).find?
          isConfirmation =
        some (w.createComment n (confirmationBody (draftLinesOf dc))).1 := by
      rw [hw1comments, List.find?_append, hfind]
      simp [isConfirmation_createComment w n (draftLinesOf dc)]
    have hreacts : (((w.createComment n
        (confirmationBody (draftLinesOf dc))).2).listReactions
          (w.createComment n (confirmationBody (draftLinesOf dc))).1.id).any
          (fun r => r.content = str "+1") = false := by
      have hempty : ((w.createComment n
          (confirmationBody (draftLinesOf dc))).2).listReactions
            (w.createComment n (confirmationBody (draftLinesOf dc))).1.id
          = [] := by
        apply List.filter_eq_nil_iff.mpr
        intro r hr
        simp [World.createComment] at hr
        simp [World.createComment, hfresh r hr]
      rw [hempty]
      rfl
    unfold processDrafts
    simp only [howner, hrepo, hn, decide_eq_true_eq]
    unfold processDraftsTry
    simp [hw1get, hcon, hne, hph, hlen, hfind2, hreacts, noFaults,
      catchStats]

set_option maxRecDepth 16000 in
/-- C3 witness: on `wEx` (one draft line, no comments, no reactions) the
first run posts the confirmation comment and returns
`{processed := 1, created := 0, existed := 0}`, and the second run on the
resulting state changes nothing and returns the same statistics. -/
theorem C3_witness :
    ∃ w1 newComment,
      processDrafts cfgEx noFaults 7 wEx = .ok (w1,
        { processed := 1, created := 0, existed := 0 }) ∧
      w1.comments = wEx.comments ++ [newComment] ∧
      newComment.issueNumber = 7 ∧
      newComment.body =
        confirmationBody (draftLinesOf (str "- Write the quarterly report")) ∧
      isConfirmation newComment = true ∧
      w1.openIssues = wEx.openIssues ∧
      w1.reactions = wEx.reactions ∧
      processDrafts cfgEx noFaults 7 w1 = .ok (w1,
        { processed := 1, created := 0, existed := 0 }) :=
  C3_two_phase_gate cfgEx 7 wEx dailyIssueEx
    (str "- Write the quarterly report")
    (by decide) (by decide) (by decide) (by decide) (by decide)
    (by decide) (by decide) (by decide) (by decide) (by decide)
